import Mathlib

/-!
Verification of the valuation engine of RealStatePro1 (src/utils.py).

The engine is a stateless library of six pure numeric functions. Python
numbers are embedded as exact rationals (ℚ); Python exceptions
(KeyError on a dict lookup, ZeroDivisionError on division by zero,
ValueError from numpy.linspace on a negative sample count) are embedded
as `none` in an `Option` result.
-/

namespace RealStatePro

/-- The three quality-tier keys of the `base_costs_aed` dict. -/
def basicLevel : String := "basic"

/-- Key of the medium tier. -/
def mediumLevel : String := "medium"

/-- Key of the luxury tier. -/
def luxuryLevel : String := "luxury"

/-- The `base_costs_aed` dict of `calculate_total_cost` in src/utils.py:
basic ↦ 300, medium ↦ 380, luxury ↦ 780 AED per sq ft; any other key
raises KeyError, embedded as `none`. -/
def base_costs_aed (quality_level : String) : Option ℚ :=
  if quality_level = basicLevel then some 300
  else if quality_level = mediumLevel then some 380
  else if quality_level = luxuryLevel then some 780
  else none

/-- `calculate_total_cost(square_feet, quality_level)` from src/utils.py:
`square_feet * base_costs_aed[quality_level]`, KeyError as `none`. -/
def calculate_total_cost (square_feet : ℚ) (quality_level : String) : Option ℚ :=
  (base_costs_aed quality_level).map (fun rate => square_feet * rate)

/-- Result record of `calculate_dubai_fees`. -/
structure DubaiFees where
  dld_fee : ℚ
  broker_fee : ℚ
  title_deed_fee : ℚ
  conveyance_fee : ℚ
  total_fees : ℚ
deriving DecidableEq, Repr

/-- `calculate_dubai_fees(property_value)` from src/utils.py. -/
def calculate_dubai_fees (property_value : ℚ) : DubaiFees :=
  let dld_fee := property_value * 0.04
  let broker_fee := property_value * 0.02
  let title_deed_fee : ℚ := 430
  let conveyance_fee : ℚ := 7350
  ⟨dld_fee, broker_fee, title_deed_fee, conveyance_fee,
    dld_fee + broker_fee + title_deed_fee + conveyance_fee⟩

/-- Result record of `estimate_property_values`. -/
structure PropertyValueEstimate where
  conservative : ℚ
  moderate : ℚ
  optimistic : ℚ
deriving DecidableEq, Repr

/-- `estimate_property_values(initial_value, total_cost, market_factor)`
from src/utils.py. -/
def estimate_property_values (initial_value total_cost market_factor : ℚ) :
    PropertyValueEstimate :=
  let value_increase := total_cost * (1 + market_factor)
  let base_value := initial_value + value_increase
  ⟨base_value * (1.15 + market_factor),
   base_value * (1.25 + market_factor),
   base_value * (1.35 + market_factor)⟩

/-- Result record of `calculate_roi_with_split`. -/
structure RoiResult where
  total_profit : ℚ
  investor_profit : ℚ
  company_profit : ℚ
  annual_roi : ℚ
deriving DecidableEq, Repr

/-- `calculate_roi_with_split(initial_investment, final_value, total_cost,
holding_period)` from src/utils.py. The division
`(investor_profit / total_investment) * (12 / holding_period)` raises
ZeroDivisionError when `total_investment = 0` or `holding_period = 0`,
embedded as `none`. -/
def calculate_roi_with_split
    (initial_investment final_value total_cost holding_period : ℚ) :
    Option RoiResult :=
  let total_investment := initial_investment + total_cost
  let profit := final_value - total_investment
  let investor_profit := profit * 0.88
  let company_profit := profit * 0.12
  if total_investment = 0 ∨ holding_period = 0 then none
  else some ⟨profit, investor_profit, company_profit,
    (investor_profit / total_investment) * (12 / holding_period) * 100⟩

/-- Result record of `calculate_share_investment`. -/
structure ShareInvestment where
  share_percentage : ℚ
  monthly_returns : ℚ
  total_returns : ℚ
  effective_annual_return : ℚ
deriving DecidableEq, Repr

/-- `calculate_share_investment(total_investment, share_amount,
holding_period)` from src/utils.py. `share_amount / total_investment`
raises ZeroDivisionError when `total_investment = 0`, embedded as `none`. -/
def calculate_share_investment
    (total_investment share_amount holding_period : ℚ) :
    Option ShareInvestment :=
  let monthly_return_rate : ℚ := 0.005
  let monthly_returns := share_amount * monthly_return_rate
  let total_returns := monthly_returns * holding_period
  if total_investment = 0 then none
  else some ⟨(share_amount / total_investment) * 100,
    monthly_returns, total_returns, monthly_return_rate * 12 * 100⟩

/-- `generate_monthly_projection(initial_value, final_value, months)` from
src/utils.py: `np.linspace(initial_value, final_value, months)`.
numpy raises ValueError when the sample count is negative (embedded as
`none`); otherwise it returns `months` evenly spaced samples over the
closed interval, the empty array when `months = 0` and the single sample
`initial_value` when `months = 1`. -/
def generate_monthly_projection (initial_value final_value : ℚ)
    (months : ℤ) : Option (List ℚ) :=
  if months < 0 then none
  else some ((List.range months.toNat).map (fun i : ℕ =>
    initial_value + (final_value - initial_value) * (i : ℚ) / ((months.toNat : ℚ) - 1)))

/-- Claim C1: the spec requires every engine function to validate its own
preconditions and fail with `InvalidArgument`; the code performs no such
validation. At the failing inputs below the code silently returns values
instead of failing: `calculate_total_cost` accepts a negative square
footage, `calculate_dubai_fees` accepts a negative property value,
`calculate_roi_with_split` accepts a negative holding period, and
`generate_monthly_projection` accepts `months = 0` without error. -/
theorem engine_skips_validation :
    calculate_total_cost (-5) basicLevel = some (-1500) ∧
    calculate_dubai_fees (-100) = ⟨-4, -2, 430, 7350, 7774⟩ ∧
    calculate_roi_with_split 0 200 100 (-6) = some ⟨100, 88, 12, -176⟩ ∧
    generate_monthly_projection 0 10 0 = some [] := by
  refine ⟨?_, ?_, ?_, rfl⟩
  · norm_num [calculate_total_cost, base_costs_aed]
  · norm_num [calculate_dubai_fees, DubaiFees.mk.injEq]
  · norm_num [calculate_roi_with_split, RoiResult.mk.injEq]

/-- Claim C2, counterexample: at `initialValue = 0`, `totalCost = 0`,
`marketFactor = 0` (which satisfy `totalCost ≥ 0` and
`marketFactor ∈ [0,1]`) all three scenarios are 0, so the strict ordering
`optimistic > moderate` fails. -/
theorem estimate_property_values_not_strict_at_zero :
    ¬ ((estimate_property_values 0 0 0).optimistic >
        (estimate_property_values 0 0 0).moderate) := by
  norm_num [estimate_property_values]

/-- Claim C2, amended: whenever `totalCost ≥ 0`, `marketFactor ∈ [0,1]`
and additionally `initialValue > 0`, the three values returned by
`estimate_property_values` are strictly ordered:
`optimistic > moderate > conservative`. -/
theorem estimate_property_values_ordered (iv tc mf : ℚ)
    (htc : 0 ≤ tc) (hmf0 : 0 ≤ mf) (hmf1 : mf ≤ 1) (hiv : 0 < iv) :
    (estimate_property_values iv tc mf).optimistic >
      (estimate_property_values iv tc mf).moderate ∧
    (estimate_property_values iv tc mf).moderate >
      (estimate_property_values iv tc mf).conservative := by
  have hb : 0 < iv + tc * (1 + mf) := by nlinarith
  dsimp only [estimate_property_values]
  constructor <;> nlinarith

/-- Witness for C2's amended theorem at `(100, 0, 0)`. -/
theorem estimate_property_values_ordered_witness :
    (estimate_property_values 100 0 0).optimistic >
      (estimate_property_values 100 0 0).moderate ∧
    (estimate_property_values 100 0 0).moderate >
      (estimate_property_values 100 0 0).conservative :=
  estimate_property_values_ordered 100 0 0
    (by norm_num) (by norm_num) (by norm_num) (by norm_num)

/-- Claim C3: whenever `calculate_roi_with_split` returns a result, the
result satisfies `investor_profit + company_profit = total_profit`
exactly (exact rational arithmetic, no rounding drift). -/
theorem roi_split_sums_to_total (ii fv tc hp : ℚ) (r : RoiResult)
    (h : calculate_roi_with_split ii fv tc hp = some r) :
    r.investor_profit + r.company_profit = r.total_profit := by
  unfold calculate_roi_with_split at h
  dsimp only at h
  split at h
  · exact absurd h (by simp)
  · simp only [Option.some.injEq] at h
    subst h
    dsimp only
    ring

/-- Witness for C3 at `calculate_roi_with_split 0 200 100 12`, whose
result is `⟨100, 88, 12, 88⟩`: `88 + 12 = 100`. -/
theorem roi_split_sums_to_total_witness :
    calculate_roi_with_split 0 200 100 12 = some ⟨100, 88, 12, 88⟩ ∧
    (88 : ℚ) + 12 = 100 :=
  ⟨by norm_num [calculate_roi_with_split, RoiResult.mk.injEq],
   roi_split_sums_to_total 0 200 100 12 ⟨100, 88, 12, 88⟩
     (by norm_num [calculate_roi_with_split, RoiResult.mk.injEq])⟩

/-- Claim C4: `estimate_property_values` computes
`baseValue = initialValue + totalCost * (1 + marketFactor)` and returns
`conservative = baseValue * (1.15 + marketFactor)`,
`moderate = baseValue * (1.25 + marketFactor)`,
`optimistic = baseValue * (1.35 + marketFactor)`. -/
theorem estimate_property_values_formula (iv tc mf : ℚ) :
    (estimate_property_values iv tc mf).conservative =
      (iv + tc * (1 + mf)) * (1.15 + mf) ∧
    (estimate_property_values iv tc mf).moderate =
      (iv + tc * (1 + mf)) * (1.25 + mf) ∧
    (estimate_property_values iv tc mf).optimistic =
      (iv + tc * (1 + mf)) * (1.35 + mf) :=
  ⟨rfl, rfl, rfl⟩

/-- Claim C5, counterexample: the claim asserts the last element is
`finalValue` for every `months ≥ 1`, but
`generate_monthly_projection 0 1 1 = some [0]`, whose last element is
`0 ≠ 1`. -/
theorem generate_monthly_projection_last_counterexample :
    generate_monthly_projection 0 1 1 = some [0] ∧
    [(0 : ℚ)].getLast? ≠ some 1 := by
  constructor
  · have h : List.range (Int.toNat 1) = [0] := rfl
    simp only [generate_monthly_projection]
    rw [if_neg (by omega), h]
    norm_num
  · simp

/-- Claim C5, amended: for every `months ≥ 1`,
`generate_monthly_projection` returns exactly `months` scalars whose
first element is `initialValue`, whose last element is `finalValue`
whenever `months ≥ 2`, and whose consecutive elements are evenly spaced
with common difference `(finalValue - initialValue) / (months - 1)`; in
particular `generate_monthly_projection x y 1 = [x]` for every `x` and
`y`, and `generate_monthly_projection 100 200 3 = [100, 150, 200]`. -/
theorem generate_monthly_projection_linspace (x y : ℚ) (m : ℤ) (hm : 1 ≤ m) :
    (∃ l : List ℚ,
      generate_monthly_projection x y m = some l ∧
      l.length = m.toNat ∧
      l.head? = some x ∧
      (2 ≤ m → l.getLast? = some y) ∧
      (∀ i : ℕ, i + 1 < l.length →
        l.getD (i + 1) 0 - l.getD i 0 = (y - x) / ((m : ℚ) - 1))) ∧
    generate_monthly_projection x y 1 = some [x] ∧
    generate_monthly_projection 100 200 3 = some [100, 150, 200] := by
  have hmn : ((m.toNat : ℚ)) = (m : ℚ) := by
    exact_mod_cast congrArg (fun z : ℤ => (z : ℚ)) (Int.toNat_of_nonneg (by omega))
  refine ⟨⟨(List.range m.toNat).map
      (fun i : ℕ => x + (y - x) * (i : ℚ) / ((m.toNat : ℚ) - 1)),
      ?_, ?_, ?_, ?_, ?_⟩, ?_, ?_⟩
  · simp only [generate_monthly_projection]
    rw [if_neg (by omega)]
  · simp
  · have hlen : 0 < ((List.range m.toNat).map
        (fun i : ℕ => x + (y - x) * (i : ℚ) / ((m.toNat : ℚ) - 1))).length := by
      simp; omega
    rw [List.head?_eq_getElem?, List.getElem?_eq_getElem hlen]
    simp [List.getElem_map, List.getElem_range]
  · intro h2
    have hn2 : 2 ≤ m.toNat := by omega
    have hc : ((m.toNat : ℚ) - 1) ≠ 0 := by
      have : (2 : ℚ) ≤ (m.toNat : ℚ) := by exact_mod_cast hn2
      linarith
    have hlen : ((List.range m.toNat).map
        (fun i : ℕ => x + (y - x) * (i : ℚ) / ((m.toNat : ℚ) - 1))).length - 1 <
        ((List.range m.toNat).map
        (fun i : ℕ => x + (y - x) * (i : ℚ) / ((m.toNat : ℚ) - 1))).length := by
      simp; omega
    rw [List.getLast?_eq_getElem?, List.getElem?_eq_getElem hlen]
    simp only [List.getElem_map, List.getElem_range, List.length_map,
      List.length_range]
    have hcast : ((m.toNat - 1 : ℕ) : ℚ) = (m.toNat : ℚ) - 1 := by
      push_cast [Nat.cast_sub (by omega : 1 ≤ m.toNat)]
      ring
    rw [hcast, mul_div_assoc, div_self hc]
    norm_num
  · intro i hi
    simp only [List.length_map, List.length_range] at hi
    have hn2 : 2 ≤ m.toNat := by omega
    have hc : ((m.toNat : ℚ) - 1) ≠ 0 := by
      have : (2 : ℚ) ≤ (m.toNat : ℚ) := by exact_mod_cast hn2
      linarith
    have hi1 : i + 1 < ((List.range m.toNat).map
        (fun j : ℕ => x + (y - x) * (j : ℚ) / ((m.toNat : ℚ) - 1))).length := by
      simp; omega
    have hi0 : i < ((List.range m.toNat).map
        (fun j : ℕ => x + (y - x) * (j : ℚ) / ((m.toNat : ℚ) - 1))).length := by
      simp; omega
    rw [List.getD_eq_getElem _ _ hi1, List.getD_eq_getElem _ _ hi0]
    simp only [List.getElem_map, List.getElem_range]
    rw [← hmn]
    push_cast
    field_simp
    ring
  · have h : List.range (Int.toNat 1) = [0] := rfl
    simp only [generate_monthly_projection]
    rw [if_neg (by omega), h]
    norm_num
  · have h : List.range (Int.toNat 3) = [0, 1, 2] := rfl
    have h2 : Int.toNat 3 = (3 : ℕ) := rfl
    simp only [generate_monthly_projection]
    rw [if_neg (by omega), h, h2]
    norm_num

/-- Witness for C5's amended theorem at `x = 100`, `y = 200`, `m = 3`. -/
theorem generate_monthly_projection_linspace_witness :
    generate_monthly_projection 100 200 3 = some [100, 150, 200] :=
  (generate_monthly_projection_linspace 100 200 3 (by norm_num)).2.2

/-- Claim C6: `calculate_dubai_fees 0` returns exactly
`⟨0, 0, 430, 7350, 7780⟩`, and for every property value the returned
`total_fees` equals the sum of the four component fees. -/
theorem calculate_dubai_fees_spec :
    calculate_dubai_fees 0 = ⟨0, 0, 430, 7350, 7780⟩ ∧
    ∀ pv : ℚ, (calculate_dubai_fees pv).total_fees =
      (calculate_dubai_fees pv).dld_fee + (calculate_dubai_fees pv).broker_fee +
      (calculate_dubai_fees pv).title_deed_fee +
      (calculate_dubai_fees pv).conveyance_fee := by
  constructor
  · norm_num [calculate_dubai_fees, DubaiFees.mk.injEq]
  · intro pv
    rfl

/-- Claim C7: whenever `calculate_share_investment` returns a result, its
`effective_annual_return` field is the constant 6, regardless of
`total_investment`, `share_amount` and `holding_period`. -/
theorem effective_annual_return_constant (ti sa hp : ℚ) (r : ShareInvestment)
    (h : calculate_share_investment ti sa hp = some r) :
    r.effective_annual_return = 6 := by
  unfold calculate_share_investment at h
  dsimp only at h
  split at h
  · exact absurd h (by simp)
  · simp only [Option.some.injEq] at h
    subst h
    norm_num

/-- Witness for C7 at `calculate_share_investment 100 50 12`, whose
result is `⟨50, 1/4, 3, 6⟩`. -/
theorem effective_annual_return_constant_witness :
    calculate_share_investment 100 50 12 = some ⟨50, 1/4, 3, 6⟩ ∧
    ShareInvestment.effective_annual_return ⟨50, 1/4, 3, 6⟩ = 6 :=
  ⟨by norm_num [calculate_share_investment, ShareInvestment.mk.injEq],
   effective_annual_return_constant 100 50 12 ⟨50, 1/4, 3, 6⟩
     (by norm_num [calculate_share_investment, ShareInvestment.mk.injEq])⟩

/-- Claim C8: every engine function is deterministic — two calls with
identical inputs yield identical outputs. In this embedding all six
functions are pure Lean functions of their arguments alone (no hidden
state), so the two results are definitionally equal. -/
theorem engine_deterministic (sf : ℚ) (ql : String)
    (pv iv tc mf ii fv hp ti sa shp x y : ℚ) (m : ℤ) :
    calculate_total_cost sf ql = calculate_total_cost sf ql ∧
    calculate_dubai_fees pv = calculate_dubai_fees pv ∧
    estimate_property_values iv tc mf = estimate_property_values iv tc mf ∧
    calculate_roi_with_split ii fv tc hp = calculate_roi_with_split ii fv tc hp ∧
    calculate_share_investment ti sa shp = calculate_share_investment ti sa shp ∧
    generate_monthly_projection x y m = generate_monthly_projection x y m :=
  ⟨rfl, rfl, rfl, rfl, rfl, rfl⟩

/-- Claim C9: the three scenarios of `estimate_property_values` are
equally spaced: `moderate - conservative = optimistic - moderate`, each
difference being `0.1` times the base value
`initialValue + totalCost * (1 + marketFactor)`. -/
theorem estimate_property_values_equally_spaced (iv tc mf : ℚ) :
    (estimate_property_values iv tc mf).moderate -
        (estimate_property_values iv tc mf).conservative =
      (estimate_property_values iv tc mf).optimistic -
        (estimate_property_values iv tc mf).moderate ∧
    (estimate_property_values iv tc mf).moderate -
        (estimate_property_values iv tc mf).conservative =
      0.1 * (iv + tc * (1 + mf)) := by
  dsimp only [estimate_property_values]
  constructor <;> ring

/-- Claim C10: with `months = 0`, `generate_monthly_projection` returns
the empty sequence and raises no error (`some []`, not `none`), for
every initial and final value. -/
theorem generate_monthly_projection_zero_months (iv fv : ℚ) :
    generate_monthly_projection iv fv 0 = some [] :=
  rfl

end RealStatePro
